import Mathlib

/-!
Shallow embedding of the authentication/session core of the couponDuniya backend:
`backend/app/api/v1/auth.py` (refresh-token rotation engine, logout header parsing)
and `backend/app/models/refresh_token.py` (record types and their validity methods),
together with spec-modelled versions of the collaborators whose modules are not in
the source tree (`app/redis_client.rate_limit`, `app/otp.request_otp` /
`verify_and_consume_otp`).

Modelling conventions:
* time is `Nat` seconds (`datetime.utcnow()` becomes an explicit `now` argument;
  `timedelta(days = d)` becomes `d * 86400`);
* SHA-256 (`_hash_token`) is modelled as the abstract injective tag
  `fun t => "sha256:" ++ t`: the proofs use only determinism, injectivity and the
  fact that a hash differs from its preimage, never any numeric property of SHA-256;
* random values (`secrets.token_urlsafe`, `uuid.uuid4`, OTP codes) are passed in as
  explicit arguments representing the draws of the random source;
* the durable store is a `List` of records; a SQLAlchemy bulk
  `query(...).filter(...).update({...})` is a `List.map` that rewrites exactly the
  rows matching the filter; `db.scalar(select(...).where(...))` is `List.find?`;
* the request-scoped ORM session commits explicitly: a mutation of a loaded ORM
  object (`stored_token.revoke(...)`) becomes durable only at a `db.commit()`
  reached later on the same path, and a path that returns without committing leaves
  the durable store unchanged (the session rolls back at request end).
-/

/-- Embeds `_hash_token` (auth.py line 34): the one-way hash used for refresh-token
storage, modelled as an abstract injective tag. -/
def hashToken (t : String) : String := "sha256:" ++ t

theorem hashToken_injective : Function.Injective hashToken := by
  intro a b h
  have hd : ("sha256:" ++ a).data = ("sha256:" ++ b).data := congrArg String.data h
  simp only [String.data_append] at hd
  exact String.ext (List.append_cancel_left hd)

theorem hashToken_ne_self (t : String) : hashToken t ≠ t := by
  intro h
  have hlen := congrArg (fun s => s.data.length) h
  simp [hashToken, String.data_append] at hlen
  omega

/-- Embeds the columns of `RefreshToken` (models/refresh_token.py lines 8-47) that the
rotation engine reads or writes. -/
structure RefreshTokenRec where
  user_id : Nat
  token_hash : String
  token_family : String
  is_revoked : Bool
  revoked_at : Option Nat
  revoked_reason : Option String
  expires_at : Nat
  last_used_at : Option Nat
  deriving DecidableEq, Repr

/-- Embeds `RefreshToken.is_expired` (models/refresh_token.py line 38):
`datetime.utcnow() > self.expires_at`. -/
def RefreshTokenRec.is_expired (r : RefreshTokenRec) (now : Nat) : Bool :=
  decide (now > r.expires_at)

/-- Embeds `RefreshToken.is_valid` (models/refresh_token.py line 41). -/
def RefreshTokenRec.is_valid (r : RefreshTokenRec) (now : Nat) : Bool :=
  !r.is_revoked && !(r.is_expired now)

/-- Embeds the fields of `User` the rotation engine consults (auth.py lines 106-107). -/
structure UserRec where
  id : Nat
  is_active : Bool
  deriving DecidableEq, Repr

/-- Error outcomes of `validate_and_rotate_refresh_token`; each constructor stands for
one of the distinct error strings the source returns. -/
inductive RotateErr where
  | invalidToken
  | tokenReused
  | expired
  | userInactive
  deriving DecidableEq, Repr

/-- The error strings of auth.py lines 91, 98, 101, 108, keyed by outcome. -/
def rotateErrMsg : RotateErr → String
  | .invalidToken => "Invalid refresh token"
  | .tokenReused => "Token was already used (possible theft detected)"
  | .expired => "Refresh token has expired"
  | .userInactive => "User not found or inactive"

/-- Result of `validate_and_rotate_refresh_token`: the source returns the tuple
`(user, new_refresh_token, error_message)` where exactly one of the last two is set. -/
inductive RotateResult where
  | ok (userId : Nat) (newRefresh : String)
  | err (e : RotateErr)
  deriving DecidableEq, Repr

/-- Number of days a refresh token lives (auth.py line 30). -/
def REFRESH_TOKEN_EXPIRE_DAYS : Nat := 30

/-- Embeds `create_refresh_token_for_user` (auth.py lines 39-69). `rawToken` stands for
the draw of `secrets.token_urlsafe(64)` and `freshFamily` for the draw of
`uuid.uuid4()`; `token_family` is the optional caller-supplied family. The Python
guard is `if not token_family`, which is taken when the argument is `None` or the
empty string. The new row is inserted and committed; the raw token is returned. -/
def create_refresh_token_for_user (db : List RefreshTokenRec) (user_id : Nat)
    (rawToken freshFamily : String) (token_family : Option String) (now : Nat) :
    String × List RefreshTokenRec :=
  let token_hash := hashToken rawToken
  let fam : String :=
    match token_family with
    | none => freshFamily
    | some s => if s = "" then freshFamily else s
  let newRecord : RefreshTokenRec :=
    { user_id := user_id
      token_hash := token_hash
      token_family := fam
      is_revoked := false
      revoked_at := none
      revoked_reason := none
      expires_at := now + REFRESH_TOKEN_EXPIRE_DAYS * 86400
      last_used_at := none }
  (rawToken, db ++ [newRecord])

/-- Embeds the bulk update of auth.py lines 94-97: every row whose `token_family`
matches is marked revoked with reason `family_revoked` (the filter has no other
condition, so the already-revoked consumed row is rewritten as well). -/
def revokeFamilyUpdate (db : List RefreshTokenRec) (fam : String) (now : Nat) :
    List RefreshTokenRec :=
  db.map fun r =>
    if r.token_family = fam then
      { r with is_revoked := true, revoked_at := some now,
               revoked_reason := some "family_revoked" }
    else r

/-- Read phase of `validate_and_rotate_refresh_token` (auth.py lines 84-101): the
`select` by token hash followed by the checks on the loaded ORM snapshot. No write
happens during this phase. -/
inductive RotateReadOutcome where
  | invalid
  | reused (st : RefreshTokenRec)
  | tooOld
  | proceed (st : RefreshTokenRec)
  deriving DecidableEq, Repr

/-- Lookup and checks of auth.py lines 84-101 applied to the durable store. -/
def rotateRead (db : List RefreshTokenRec) (raw : String) (now : Nat) :
    RotateReadOutcome :=
  match db.find? (fun r => r.token_hash == hashToken raw) with
  | none => .invalid
  | some st =>
    if st.is_revoked then .reused st
    else if st.is_expired now then .tooOld
    else .proceed st

/-- Write phase of the happy path of `validate_and_rotate_refresh_token` (auth.py
lines 103-118) applied to the durable store current at write time, for the record
`st` loaded during the read phase. The pending revoke of lines 103-104 (reason
`rotated`, `last_used_at` set) reaches the store only through the commit inside
`create_refresh_token_for_user`; on the missing/inactive-user path no commit runs,
so the store is returned unchanged. -/
def rotateProceed (db : List RefreshTokenRec) (users : List UserRec)
    (st : RefreshTokenRec) (now : Nat) (newRaw newFam : String) :
    RotateResult × List RefreshTokenRec :=
  let stPending : RefreshTokenRec :=
    { st with is_revoked := true, revoked_at := some now,
              revoked_reason := some "rotated", last_used_at := some now }
  match users.find? (fun u => u.id == st.user_id) with
  | none => (.err .userInactive, db)
  | some u =>
    if u.is_active then
      let dbPending := db.map fun r => if r.token_hash = st.token_hash then stPending else r
      let p := create_refresh_token_for_user dbPending u.id newRaw newFam
        (some st.token_family) now
      (.ok u.id p.1, p.2)
    else (.err .userInactive, db)

/-- Dispatch of the write phase over the read decision. -/
def rotateWrite (db : List RefreshTokenRec) (users : List UserRec)
    (o : RotateReadOutcome) (now : Nat) (newRaw newFam : String) :
    RotateResult × List RefreshTokenRec :=
  match o with
  | .invalid => (.err .invalidToken, db)
  | .reused st => (.err .tokenReused, revokeFamilyUpdate db st.token_family now)
  | .tooOld => (.err .expired, db)
  | .proceed st => rotateProceed db users st now newRaw newFam

/-- Embeds `validate_and_rotate_refresh_token` (auth.py lines 72-118) as one
sequential call: the read phase against the store followed immediately by the write
phase against the same store. -/
def validate_and_rotate_refresh_token (db : List RefreshTokenRec)
    (users : List UserRec) (raw : String) (now : Nat) (newRaw newFam : String) :
    RotateResult × List RefreshTokenRec :=
  rotateWrite db users (rotateRead db raw now) now newRaw newFam

/-- Interleaved execution of two concurrent rotate calls sharing the durable store:
both sessions run the `select` of line 86 before either commits its writes, then the
write phases commit one after the other. Each call checks its own ORM
snapshot, as SQLAlchemy sessions do. -/
def rotateRaceBothRead (db : List RefreshTokenRec) (users : List UserRec)
    (raw : String) (now : Nat) (newRaw1 newFam1 newRaw2 newFam2 : String) :
    RotateResult × RotateResult × List RefreshTokenRec :=
  let o1 := rotateRead db raw now
  let o2 := rotateRead db raw now
  let p1 := rotateWrite db users o1 now newRaw1 newFam1
  let p2 := rotateWrite p1.2 users o2 now newRaw2 newFam2
  (p1.1, p2.1, p2.2)

/-- Embeds `revoke_user_refresh_tokens` (auth.py lines 121-131): the bulk update
filters on `user_id == user_id` and `is_revoked == False` and sets the revocation
triple, then commits. -/
def revoke_user_refresh_tokens (db : List RefreshTokenRec) (user_id : Nat)
    (reason : String) (now : Nat) : List RefreshTokenRec :=
  db.map fun r =>
    if r.user_id = user_id ∧ r.is_revoked = false then
      { r with is_revoked := true, revoked_at := some now, revoked_reason := some reason }
    else r

/-- Embeds the columns of `OTPAttempt` (models/refresh_token.py lines 50-72) that the
challenge engine reads or writes; `max_attempts` defaults to 5 in the source model. -/
structure OTPAttemptRec where
  identifier : String
  otp_hash : String
  purpose : String
  attempts : Nat
  max_attempts : Nat
  is_verified : Bool
  verified_at : Option Nat
  expires_at : Nat
  deriving DecidableEq, Repr

/-- Embeds `OTPAttempt.is_expired` (models/refresh_token.py line 74). -/
def OTPAttemptRec.is_expired (r : OTPAttemptRec) (now : Nat) : Bool :=
  decide (now > r.expires_at)

/-- Embeds `OTPAttempt.is_valid` (models/refresh_token.py lines 77-78):
`not is_verified and not is_expired() and attempts < max_attempts`. -/
def OTPAttemptRec.is_valid (r : OTPAttemptRec) (now : Nat) : Bool :=
  !r.is_verified && !(r.is_expired now) && decide (r.attempts < r.max_attempts)

/-- Lifetime of an OTP challenge in seconds (spec section 4.2: default 5 minutes). -/
def OTP_EXPIRE_SECONDS : Nat := 300

/-- Freshly issued challenge record: only the one-way hash of the code is stored,
with `expires_at = now + 300` and `attempts = 0` (spec section 4.2, columns from the
source `OTPAttempt` model with its `max_attempts = 5` default). -/
def otpFreshRec (identifier purpose code : String) (now : Nat) : OTPAttemptRec :=
  { identifier := identifier
    otp_hash := hashToken code
    purpose := purpose
    attempts := 0
    max_attempts := 5
    is_verified := false
    verified_at := none
    expires_at := now + OTP_EXPIRE_SECONDS }

/-- Modelled from the spec: `request(identifier, purpose)` of the OTP Challenge Engine
(`app/otp.request_otp`, a module not present under src/; only its caller in auth.py
is). Per spec section 4.2 it stores only the one-way hash of the fresh code and
invalidates any previously active record for the same `(identifier, purpose)` key
(logical supersession), here modelled by replacing every prior record for the key.
`code` stands for the draw of the cryptographically secure numeric code. -/
def otpRequest (store : List OTPAttemptRec) (identifier purpose code : String)
    (now : Nat) : List OTPAttemptRec :=
  (store.filter fun r => !(r.identifier == identifier && r.purpose == purpose)) ++
    [otpFreshRec identifier purpose code now]

/-- Outcomes of OTP verification, one per error kind of spec section 7. -/
inductive OTPVerifyResult where
  | notFound
  | tooOld
  | attemptsExceeded
  | mismatch (remaining : Nat)
  | ok
  deriving DecidableEq, Repr

/-- Modelled from the spec: `verify(identifier, purpose, code)` of the OTP Challenge
Engine (`app/otp.verify_and_consume_otp`, a module not present under src/). Per spec
section 4.2 it loads the active record for the key, fails `NotFound` if none,
`Expired` if past `expires_at`, `AttemptsExceeded` if `attempts >= max_attempts`
(checked before comparing the code); otherwise compares the one-way hash — on
mismatch it increments `attempts` and reports the remaining attempts, on match it
marks the record verified. The expiry and attempt checks reuse the source methods
`OTPAttemptRec.is_expired` and the `attempts`/`max_attempts` columns. -/
def otpVerify (store : List OTPAttemptRec) (identifier purpose code : String)
    (now : Nat) : OTPVerifyResult × List OTPAttemptRec :=
  match store.find?
      (fun r => r.identifier == identifier && r.purpose == purpose && !r.is_verified) with
  | none => (.notFound, store)
  | some r =>
    if r.is_expired now then (.tooOld, store)
    else if r.max_attempts ≤ r.attempts then (.attemptsExceeded, store)
    else if r.otp_hash = hashToken code then
      (.ok, store.map fun s =>
        if s = r then { s with is_verified := true, verified_at := some now } else s)
    else
      (.mismatch (r.max_attempts - (r.attempts + 1)),
       store.map fun s => if s = r then { s with attempts := s.attempts + 1 } else s)

/-- Entry of the Atomic Counter Store used by the rate limiter: a key with its count
and window expiry (spec section 3, RateLimitCounter). -/
structure RateLimitEntry where
  key : String
  count : Nat
  expires_at : Nat
  deriving DecidableEq, Repr

/-- Count currently live for a key: the counter value when an unexpired entry for the
key exists, 0 otherwise (an expired entry is gone from the point of view of the caller). -/
def liveCount (store : List RateLimitEntry) (key : String) (now : Nat) : Nat :=
  match store.find? (fun e => e.key == key && decide (now < e.expires_at)) with
  | none => 0
  | some e => e.count

/-- Modelled from the spec: `rate_limit(scope_key, max_count, window_seconds)` of
`app/redis_client`, a module not present under src/ (only its call sites in auth.py
are, e.g. `rate_limit(f"login:...", 5, 300)` at line 268). Per spec section 4.1 the
counter for the key is incremented atomically on every call; the first increment in
a window sets the expiry to `now + window`; `allowed = (count <= max_count)`;
`remaining = max_count - count` and `resetIn` is the time left in the window. The
increment happens even when the call is denied. Returns
`((allowed, remaining, resetIn), store)`. -/
def rate_limit (store : List RateLimitEntry) (key : String)
    (maxCount window now : Nat) : (Bool × Nat × Nat) × List RateLimitEntry :=
  match store.find? (fun e => e.key == key && decide (now < e.expires_at)) with
  | none =>
    ((decide (1 ≤ maxCount), maxCount - 1, window),
     (store.filter fun s => !(s.key == key)) ++ [⟨key, 1, now + window⟩])
  | some e =>
    let c := e.count + 1
    ((decide (c ≤ maxCount), maxCount - c, e.expires_at - now),
     (store.filter fun s => !(s.key == key)) ++ [{ e with count := c }])

/-- Python `str.split()` with no separator as used on the Authorization header
(auth.py line 497): split on runs of whitespace, dropping empty words; the model
covers the space character. Recursion over the character list with the word
accumulated so far. -/
def pyWordsAux : List Char → List Char → List String
  | [], acc => if acc.isEmpty then [] else [String.mk acc.reverse]
  | c :: cs, acc =>
    if c = ' ' then
      if acc.isEmpty then pyWordsAux cs []
      else String.mk acc.reverse :: pyWordsAux cs []
    else pyWordsAux cs (c :: acc)

/-- Python `authorization.split()`. -/
def pySplit (s : String) : List String := pyWordsAux s.data []

/-- Outcome of Authorization-header parsing in the logout endpoint. -/
inductive LogoutParse where
  | missingToken
  | indexError
  | token (t : String)
  deriving DecidableEq, Repr

/-- Embeds the header handling of `logout` (auth.py lines 494-497): `if not
authorization` raises the structured 401 (taken for `None` and for the empty
string); otherwise `token = authorization.split()[1]` — when the split list has no
second element this indexing raises an uncaught `IndexError`, modelled as the
`indexError` outcome. -/
def logoutBearerToken (authorization : Option String) : LogoutParse :=
  match authorization with
  | none => .missingToken
  | some a =>
    if a = "" then .missingToken
    else
      match (pySplit a).get? 1 with
      | none => .indexError
      | some t => .token t

/-- Concrete fixture: an already-revoked (rotated-away) token record in family
`fam1`, whose original revocation reason is `rotated`. -/
def revokedTok : RefreshTokenRec :=
  { user_id := 1
    token_hash := hashToken "rawA"
    token_family := "fam1"
    is_revoked := true
    revoked_at := some 5
    revoked_reason := some "rotated"
    expires_at := 1000
    last_used_at := none }

/-- Concrete fixture: a live (non-revoked, unexpired at times below 1000) token
record in family `fam1`. -/
def liveTok : RefreshTokenRec :=
  { user_id := 1
    token_hash := hashToken "rawA"
    token_family := "fam1"
    is_revoked := false
    revoked_at := none
    revoked_reason := none
    expires_at := 1000
    last_used_at := none }

/-- Claim C10: a non-empty Authorization header with no second whitespace-separated
word (for example a bare token without the `Bearer ` tag) makes the logout
endpoint expression `authorization.split()[1]` index past the end of the list, an uncaught
failure rather than a structured error, while a well-formed header parses. -/
theorem C10_logout_header_index_error :
    logoutBearerToken (some "sometoken") = .indexError ∧
    ("sometoken" : String) ≠ "" ∧
    logoutBearerToken (some "Bearer abc") = .token "abc" := by
  exact ⟨by decide, by decide, by decide⟩

/-- Claim C4, counterexample: `issue` called with the supplied family id `""` (a
supplied value that is Python-falsy) does not use the supplied family — it stores
the freshly generated one instead, refuting "a fresh family_id is generated exactly
when none is supplied (and the supplied one is used otherwise)". -/
theorem C4_counterexample :
    ((create_refresh_token_for_user [] 1 "rawT" "freshFam" (some "") 0).2.map
      fun r => r.token_family) = ["freshFam"] ∧
    ("freshFam" : String) ≠ "" := by
  exact ⟨by decide, by decide⟩

/-- Claim C4 (amended): `issue` appends exactly one record that stores only the
one-way hash of the generated secret (which differs from the raw secret), with
`expires_at = now + 30 days`; a fresh family id is used exactly when the supplied
one is `None` or the empty string (both Python-falsy), the supplied one otherwise;
and the raw secret is returned to the caller. -/
theorem C4_issue_contract (db : List RefreshTokenRec) (uid : Nat)
    (rawToken freshFam : String) (famOpt : Option String) (now : Nat) :
    ∃ r : RefreshTokenRec,
      (create_refresh_token_for_user db uid rawToken freshFam famOpt now).2 = db ++ [r] ∧
      (create_refresh_token_for_user db uid rawToken freshFam famOpt now).1 = rawToken ∧
      r.token_hash = hashToken rawToken ∧
      r.token_hash ≠ rawToken ∧
      r.expires_at = now + REFRESH_TOKEN_EXPIRE_DAYS * 86400 ∧
      r.user_id = uid ∧
      r.is_revoked = false ∧
      ((famOpt = none ∨ famOpt = some "") → r.token_family = freshFam) ∧
      (∀ s, famOpt = some s → s ≠ "" → r.token_family = s) := by
  refine ⟨_, rfl, rfl, rfl, hashToken_ne_self rawToken, rfl, rfl, rfl, ?_, ?_⟩
  · rcases famOpt with _ | s
    · intro _; rfl
    · rintro (h | h)
      · exact absurd h (by simp)
      · simp only [Option.some.injEq] at h
        subst h
        simp [create_refresh_token_for_user]
  · rintro s rfl hs
    simp [create_refresh_token_for_user, hs]

/-- Claim C4, witness for the amended theorem at a concrete input. -/
theorem C4_issue_contract_witness :
    (create_refresh_token_for_user [] 2 "rawW" "famW" none 7).1 = "rawW" := by
  obtain ⟨r, _, h, _⟩ := C4_issue_contract [] 2 "rawW" "famW" none 7
  exact h

/-- Claim C1, counterexample: presenting the raw secret of an already-revoked record
(original reason `rotated`) fails with the reuse error, but the consumed record does
not keep its original `revoked_reason` — the family-wide bulk update filters only on
`token_family`, so the reason on the consumed row is overwritten to `family_revoked`. -/
theorem C1_counterexample :
    (validate_and_rotate_refresh_token [revokedTok] [⟨1, true⟩] "rawA" 10
        "rawNew" "famNew").1 = .err .tokenReused ∧
    ((validate_and_rotate_refresh_token [revokedTok] [⟨1, true⟩] "rawA" 10
        "rawNew" "famNew").2.map fun r => r.revoked_reason) ≠ [some "rotated"] := by
  exact ⟨by decide, by decide⟩

/-- Claim C1 (amended): when the record matching the hash of the presented secret is
already revoked, rotation fails with the reuse error, inserts nothing, and marks
every record of the same family — the consumed record included, its original
`revoked_reason` being overwritten — as revoked with reason `family_revoked`,
leaving records of other families unchanged. -/
theorem C1_theft_path_revokes_family (db : List RefreshTokenRec)
    (users : List UserRec) (raw : String) (now : Nat) (newRaw newFam : String)
    (st : RefreshTokenRec)
    (hfind : db.find? (fun r => r.token_hash == hashToken raw) = some st)
    (hrev : st.is_revoked = true) :
    (validate_and_rotate_refresh_token db users raw now newRaw newFam).1 =
      .err .tokenReused ∧
    (validate_and_rotate_refresh_token db users raw now newRaw newFam).2.length =
      db.length ∧
    (∀ r ∈ db, r.token_family = st.token_family →
      { r with is_revoked := true, revoked_at := some now,
               revoked_reason := some "family_revoked" } ∈
        (validate_and_rotate_refresh_token db users raw now newRaw newFam).2) ∧
    (∀ r ∈ db, r.token_family ≠ st.token_family →
      r ∈ (validate_and_rotate_refresh_token db users raw now newRaw newFam).2) := by
  have hw : rotateWrite db users (.reused st) now newRaw newFam =
      (.err .tokenReused, revokeFamilyUpdate db st.token_family now) := rfl
  unfold validate_and_rotate_refresh_token rotateRead
  rw [hfind]
  simp only [hrev, if_true, hw]
  unfold revokeFamilyUpdate
  refine ⟨by trivial, by simp, ?_, ?_⟩
  · intro r hr hfam
    exact List.mem_map.mpr ⟨r, hr, by simp [hfam]⟩
  · intro r hr hfam
    exact List.mem_map.mpr ⟨r, hr, by simp [hfam]⟩

/-- Claim C1, witness for the amended theorem at a concrete input. -/
theorem C1_theft_path_revokes_family_witness :
    (validate_and_rotate_refresh_token [revokedTok] [⟨1, true⟩] "rawA" 10
        "rawNew2" "famNew2").1 = .err .tokenReused :=
  (C1_theft_path_revokes_family [revokedTok] [⟨1, true⟩] "rawA" 10 "rawNew2"
    "famNew2" revokedTok (by decide) (by decide)).1

/-- Claim C2: rotating a non-revoked, non-expired token whose owner is missing or
inactive fails with the user-inactive error and leaves the durable store entirely
unchanged — the pending revoke of the ORM object is never committed on this path,
so the presented record stays non-revoked with its reason unset and its
`last_used_at` untouched. -/
theorem C2_inactive_user_leaves_state (db : List RefreshTokenRec)
    (users : List UserRec) (raw : String) (now : Nat) (newRaw newFam : String)
    (st : RefreshTokenRec)
    (hfind : db.find? (fun r => r.token_hash == hashToken raw) = some st)
    (hrev : st.is_revoked = false)
    (hexp : st.is_expired now = false)
    (husers : ∀ u ∈ users, u.id = st.user_id → u.is_active = false) :
    validate_and_rotate_refresh_token db users raw now newRaw newFam =
      (.err .userInactive, db) := by
  unfold validate_and_rotate_refresh_token rotateRead
  rw [hfind]
  simp only [hrev, hexp, Bool.false_eq_true, if_false]
  show rotateProceed db users st now newRaw newFam = (.err .userInactive, db)
  unfold rotateProceed
  cases hfu : users.find? (fun u => u.id == st.user_id) with
  | none => rfl
  | some u =>
    have hmem := List.mem_of_find?_eq_some hfu
    have hid : u.id = st.user_id := by
      have := List.find?_some hfu
      simpa using this
    have := husers u hmem hid
    simp [this]

/-- Claim C2, witness at a concrete input: one live token whose owner is inactive. -/
theorem C2_inactive_user_leaves_state_witness :
    validate_and_rotate_refresh_token [liveTok] [⟨1, false⟩] "rawA" 10
        "rawNew3" "famNew3" = (.err .userInactive, [liveTok]) := by
  refine C2_inactive_user_leaves_state [liveTok] [⟨1, false⟩] "rawA" 10
    "rawNew3" "famNew3" liveTok (by decide) (by decide) (by decide) ?_
  intro u hu hid
  simp only [List.mem_singleton] at hu
  subst hu
  rfl

/-- Claim C9: whenever rotation fails with the invalid-token or the expired error,
the durable store is returned exactly as it was — both paths return before any
write, unlike the reuse path which writes by design. -/
theorem C9_invalid_or_expired_no_writes (db : List RefreshTokenRec)
    (users : List UserRec) (raw : String) (now : Nat) (newRaw newFam : String)
    (h : (validate_and_rotate_refresh_token db users raw now newRaw newFam).1 =
           .err .invalidToken ∨
         (validate_and_rotate_refresh_token db users raw now newRaw newFam).1 =
           .err .expired) :
    (validate_and_rotate_refresh_token db users raw now newRaw newFam).2 = db := by
  unfold validate_and_rotate_refresh_token rotateRead at h ⊢
  cases hf : db.find? (fun r => r.token_hash == hashToken raw) with
  | none => rfl
  | some st =>
    rw [hf] at h
    by_cases hr : st.is_revoked
    · simp only [hr, if_true] at h
      have hw : rotateWrite db users (.reused st) now newRaw newFam =
          (.err .tokenReused, revokeFamilyUpdate db st.token_family now) := rfl
      rw [hw] at h
      rcases h with h | h <;> simp at h
    · by_cases he : st.is_expired now
      · simp only [hr, he, Bool.false_eq_true, if_false, if_true]
        rfl
      · simp only [hr, he, Bool.false_eq_true, if_false] at h ⊢
        have hw : rotateWrite db users (.proceed st) now newRaw newFam =
            rotateProceed db users st now newRaw newFam := rfl
        rw [hw] at h ⊢
        unfold rotateProceed at h ⊢
        cases hfu : users.find? (fun u => u.id == st.user_id) with
        | none => rfl
        | some u =>
          rw [hfu] at h
          by_cases ha : u.is_active
          · simp only [ha, if_true] at h
            rcases h with h | h <;> simp at h
          · simp [ha]

/-- Claim C9, witness at a concrete input: an unknown secret against an empty store. -/
theorem C9_invalid_or_expired_no_writes_witness :
    (validate_and_rotate_refresh_token [] [] "nosuch" 0 "x" "y").2 = [] :=
  C9_invalid_or_expired_no_writes [] [] "nosuch" 0 "x" "y" (Or.inl (by decide))

/-- Claim C3: under the interleaving in which both concurrent rotate calls run their
`select` before either commits (read, read, write, write), both calls succeed and
two live successor tokens are created in the same family — the source revokes with
a plain attribute assignment plus commit, not with the conditional
set-revoked-only-if-unrevoked update the spec mandates, so the claimed
exactly-one-winner property fails. -/
theorem C3_race_both_rotations_succeed :
    (rotateRaceBothRead [liveTok] [⟨1, true⟩] "rawA" 10 "rawB" "famB"
        "rawC" "famC").1 = .ok 1 "rawB" ∧
    (rotateRaceBothRead [liveTok] [⟨1, true⟩] "rawA" 10 "rawB" "famB"
        "rawC" "famC").2.1 = .ok 1 "rawC" ∧
    ((rotateRaceBothRead [liveTok] [⟨1, true⟩] "rawA" 10 "rawB" "famB"
        "rawC" "famC").2.2.filter fun r =>
          r.token_family == "fam1" && !r.is_revoked).length = 2 := by
  exact ⟨by decide, by decide, by decide⟩

/-- Claim C8: `revoke_user_refresh_tokens` marks every non-revoked record of the
owner as revoked with the given reason, leaves already-revoked records and records of other
owners exactly as they were, afterwards every record of the owner is
revoked, and a second run — with any reason and at any time — changes nothing. -/
theorem C8_revoke_user_tokens (db : List RefreshTokenRec) (uid : Nat)
    (reason : String) (now : Nat) (reason2 : String) (now2 : Nat) :
    (∀ r ∈ db, r.user_id = uid → r.is_revoked = false →
      { r with is_revoked := true, revoked_at := some now,
               revoked_reason := some reason } ∈
        revoke_user_refresh_tokens db uid reason now) ∧
    (∀ r ∈ db, r.is_revoked = true →
      r ∈ revoke_user_refresh_tokens db uid reason now) ∧
    (∀ r ∈ db, r.user_id ≠ uid →
      r ∈ revoke_user_refresh_tokens db uid reason now) ∧
    (∀ r ∈ revoke_user_refresh_tokens db uid reason now, r.user_id = uid →
      r.is_revoked = true) ∧
    revoke_user_refresh_tokens (revoke_user_refresh_tokens db uid reason now)
        uid reason2 now2 =
      revoke_user_refresh_tokens db uid reason now := by
  refine ⟨?_, ?_, ?_, ?_, ?_⟩
  · intro r hr hu hv
    exact List.mem_map.mpr ⟨r, hr, by simp [revoke_user_refresh_tokens, hu, hv]⟩
  · intro r hr hv
    exact List.mem_map.mpr ⟨r, hr, by simp [revoke_user_refresh_tokens, hv]⟩
  · intro r hr hu
    exact List.mem_map.mpr ⟨r, hr, by simp [revoke_user_refresh_tokens, hu]⟩
  · intro r hr hu
    obtain ⟨s, _, hs⟩ := List.mem_map.mp hr
    by_cases hc : s.user_id = uid ∧ s.is_revoked = false
    · rw [← hs, if_pos hc]
    · rw [← hs, if_neg hc]
      rw [← hs, if_neg hc] at hu
      cases hb : s.is_revoked with
      | true => rfl
      | false => exact absurd ⟨hu, hb⟩ hc
  · unfold revoke_user_refresh_tokens
    rw [List.map_map]
    apply List.map_congr_left
    intro r _
    simp only [Function.comp_apply]
    by_cases hc : r.user_id = uid ∧ r.is_revoked = false
    · rw [if_pos hc]
      rw [if_neg (by simp)]
    · rw [if_neg hc, if_neg hc]

/-- Claim C8, witness at a concrete input: a mixed store of one live and one revoked
record for the owner; second run with a different reason changes nothing. -/
theorem C8_revoke_user_tokens_witness :
    revoke_user_refresh_tokens
        (revoke_user_refresh_tokens [liveTok, revokedTok] 1 "logout" 20)
        1 "manual" 99 =
      revoke_user_refresh_tokens [liveTok, revokedTok] 1 "logout" 20 :=
  (C8_revoke_user_tokens [liveTok, revokedTok] 1 "logout" 20 "manual" 99).2.2.2.2

/-- Concrete OTP scenario: a fresh challenge for code `4821` followed by `n` verify
calls with the wrong code `0000`, all at time 0. -/
def otpMissN : Nat → List OTPAttemptRec
  | 0 => otpRequest [] "+911234567890" "login" "4821" 0
  | n + 1 => (otpVerify (otpMissN n) "+911234567890" "login" "0000" 0).2

/-- Claim C5: a challenge record with `attempts >= max_attempts` is never valid
(the source checks the counter inside `is_valid` independently of the code), and in
the concrete scenario with `max_attempts = 5` five wrong guesses each return a
mismatch with the remaining count, after which a sixth verify presenting the
correct code still fails with the attempts-exceeded error — the cap is checked
before the code hash is compared. -/
theorem C5_exhausted_attempts_reject_correct_code :
    (∀ (r : OTPAttemptRec) (now : Nat), r.max_attempts ≤ r.attempts →
      r.is_valid now = false) ∧
    (∀ i < 5, (otpVerify (otpMissN i) "+911234567890" "login" "0000" 0).1 =
      .mismatch (4 - i)) ∧
    (otpVerify (otpMissN 5) "+911234567890" "login" "4821" 0).1 =
      .attemptsExceeded := by
  refine ⟨?_, by decide, by decide⟩
  intro r now h
  simp only [OTPAttemptRec.is_valid]
  have hd : decide (r.attempts < r.max_attempts) = false := by
    simp [Nat.not_lt.mpr h]
  simp [hd]

/-- Claim C5, witness for the quantified part at a concrete exhausted record. -/
theorem C5_exhausted_attempts_reject_correct_code_witness :
    OTPAttemptRec.is_valid
      { identifier := "+911234567890", otp_hash := hashToken "4821",
        purpose := "login", attempts := 5, max_attempts := 5,
        is_verified := false, verified_at := none, expires_at := 300 } 0 = false :=
  C5_exhausted_attempts_reject_correct_code.1
    { identifier := "+911234567890", otp_hash := hashToken "4821",
      purpose := "login", attempts := 5, max_attempts := 5,
      is_verified := false, verified_at := none, expires_at := 300 } 0
    (by decide)

/-- After the limiter rewrites the entry for `key`, looking up a live entry for
`key` finds exactly the rewritten entry (when it is unexpired): every other entry
for the key was filtered away and entries for other keys fail the lookup. -/
theorem findLive_update (store : List RateLimitEntry) (key : String)
    (e : RateLimitEntry) (now : Nat) (hk : e.key = key) :
    ((store.filter fun s => !(s.key == key)) ++ [e]).find?
        (fun x => x.key == key && decide (now < x.expires_at)) =
      if now < e.expires_at then some e else none := by
  rw [List.find?_append]
  have h1 : (store.filter fun s => !(s.key == key)).find?
      (fun x => x.key == key && decide (now < x.expires_at)) = none := by
    rw [List.find?_eq_none]
    intro x hx
    have hxk := (List.mem_filter.mp hx).2
    simp only [Bool.not_eq_true', beq_eq_false_iff_ne, ne_eq] at hxk
    simp [hxk]
  rw [h1]
  by_cases hlt : now < e.expires_at
  · simp [List.find?, hk, hlt]
  · simp [List.find?, hk, hlt]

/-- Concrete limiter scenario: `n` consecutive calls for scope `login:alice` with
`max = 5`, `window = 300`, all at time 0, starting from an empty counter store. -/
def rlCallsN : Nat → List RateLimitEntry
  | 0 => []
  | n + 1 => (rate_limit (rlCallsN n) "login:alice" 5 300 0).2

/-- Claim C6: every limiter call increments the live counter for its key by one —
denied calls included, there is no compensating decrement — and a call is allowed
exactly when the post-increment count is within the limit; with `max = 5` and
`window = 300` the 1st through 5th calls of a window are allowed, the 6th is denied
with `resetIn <= 300`, and a call after the window has elapsed is allowed again. -/
theorem C6_fixed_window_rate_limiter :
    (∀ (store : List RateLimitEntry) (key : String) (m w now : Nat), 0 < w →
      liveCount (rate_limit store key m w now).2 key now =
        liveCount store key now + 1) ∧
    (∀ (store : List RateLimitEntry) (key : String) (m w now : Nat),
      (rate_limit store key m w now).1.1 =
        decide (liveCount store key now + 1 ≤ m)) ∧
    ((∀ i < 5, (rate_limit (rlCallsN i) "login:alice" 5 300 0).1.1 = true) ∧
     (rate_limit (rlCallsN 5) "login:alice" 5 300 0).1.1 = false ∧
     (rate_limit (rlCallsN 5) "login:alice" 5 300 0).1.2.2 ≤ 300 ∧
     (rate_limit (rlCallsN 6) "login:alice" 5 300 300).1.1 = true ∧
     liveCount (rate_limit (rlCallsN 6) "login:alice" 5 300 300).2
       "login:alice" 300 = 1) := by
  refine ⟨?_, ?_, by decide, by decide, by decide, by decide, by decide⟩
  · intro store key m w now hw
    cases hf : store.find? (fun e => e.key == key && decide (now < e.expires_at)) with
    | none =>
      have h2 : (rate_limit store key m w now).2 =
          (store.filter fun s => !(s.key == key)) ++ [⟨key, 1, now + w⟩] := by
        unfold rate_limit
        rw [hf]
      have h3 : liveCount store key now = 0 := by
        unfold liveCount
        rw [hf]
      rw [h3]
      unfold liveCount
      rw [h2, findLive_update store key _ now rfl,
        if_pos (Nat.lt_add_of_pos_right hw)]
    | some e =>
      have hp := List.find?_some hf
      simp only [Bool.and_eq_true, beq_iff_eq, decide_eq_true_eq] at hp
      have h2 : (rate_limit store key m w now).2 =
          (store.filter fun s => !(s.key == key)) ++ [{ e with count := e.count + 1 }] := by
        unfold rate_limit
        rw [hf]
      have h3 : liveCount store key now = e.count := by
        unfold liveCount
        rw [hf]
      rw [h3]
      unfold liveCount
      rw [h2, findLive_update store key { e with count := e.count + 1 } now
        (show ({ e with count := e.count + 1 } : RateLimitEntry).key = key from hp.1)]
      simp [hp.2]
  · intro store key m w now
    cases hf : store.find? (fun e => e.key == key && decide (now < e.expires_at)) with
    | none =>
      have ha : (rate_limit store key m w now).1.1 = decide (1 ≤ m) := by
        unfold rate_limit
        rw [hf]
      have h3 : liveCount store key now = 0 := by
        unfold liveCount
        rw [hf]
      rw [ha, h3]
    | some e =>
      have ha : (rate_limit store key m w now).1.1 = decide (e.count + 1 ≤ m) := by
        unfold rate_limit
        rw [hf]
      have h3 : liveCount store key now = e.count := by
        unfold liveCount
        rw [hf]
      rw [ha, h3]

/-- Claim C6, witness for the quantified increment part at a concrete input. -/
theorem C6_fixed_window_rate_limiter_witness :
    liveCount (rate_limit [] "login:alice" 5 300 0).2 "login:alice" 0 =
      liveCount [] "login:alice" 0 + 1 :=
  C6_fixed_window_rate_limiter.1 [] "login:alice" 5 300 0 (by decide)

/-- Claim C7: issuing a new challenge for a key supersedes the old one — after a
second request with a different code, verifying the old (never-expired) code fails
with a mismatch rather than succeeding, and exactly one record for the key remains
in the store, so at most one active challenge per key exists. -/
theorem C7_new_request_supersedes_old (store : List OTPAttemptRec)
    (identifier purpose oldCode newCode : String) (now1 now2 now3 : Nat)
    (hcode : oldCode ≠ newCode)
    (hfresh : now3 ≤ now2 + OTP_EXPIRE_SECONDS) :
    (otpVerify (otpRequest (otpRequest store identifier purpose oldCode now1)
        identifier purpose newCode now2) identifier purpose oldCode now3).1 =
      .mismatch 4 ∧
    ((otpRequest (otpRequest store identifier purpose oldCode now1)
        identifier purpose newCode now2).filter fun r =>
          r.identifier == identifier && r.purpose == purpose).length = 1 := by
  have hshape : otpRequest (otpRequest store identifier purpose oldCode now1)
      identifier purpose newCode now2 =
      (store.filter fun r => !(r.identifier == identifier && r.purpose == purpose)) ++
        [otpFreshRec identifier purpose newCode now2] := by
    unfold otpRequest
    rw [List.filter_append]
    rw [List.filter_eq_self.mpr (fun a ha => (List.mem_filter.mp ha).2)]
    simp [otpFreshRec]
  have hFfalse : ∀ x ∈ (store.filter fun r =>
      !(r.identifier == identifier && r.purpose == purpose)),
      (x.identifier == identifier && x.purpose == purpose) = false := by
    intro x hx
    have hq := (List.mem_filter.mp hx).2
    rwa [Bool.not_eq_true'] at hq
  rw [hshape]
  constructor
  · unfold otpVerify
    have hfind : ((store.filter fun r =>
        !(r.identifier == identifier && r.purpose == purpose)) ++
          [otpFreshRec identifier purpose newCode now2]).find?
          (fun r => r.identifier == identifier && r.purpose == purpose &&
            !r.is_verified) = some (otpFreshRec identifier purpose newCode now2) := by
      rw [List.find?_append]
      have h1 : (store.filter fun r =>
          !(r.identifier == identifier && r.purpose == purpose)).find?
          (fun r => r.identifier == identifier && r.purpose == purpose &&
            !r.is_verified) = none := by
        rw [List.find?_eq_none]
        intro x hx hcon
        have hq := hFfalse x hx
        simp only [Bool.and_eq_true] at hcon
        simp [hcon.1.1, hcon.1.2] at hq
      rw [h1]
      simp [List.find?, otpFreshRec]
    rw [hfind]
    have hexp : ¬ (now2 + OTP_EXPIRE_SECONDS < now3) := Nat.not_lt.mpr hfresh
    have hh : hashToken newCode ≠ hashToken oldCode :=
      fun h => hcode (hashToken_injective h).symm
    simp [OTPAttemptRec.is_expired, otpFreshRec, hexp, hh]
  · rw [List.filter_append]
    have h0 : (store.filter fun r =>
        !(r.identifier == identifier && r.purpose == purpose)).filter
        (fun r => r.identifier == identifier && r.purpose == purpose) = [] := by
      rw [List.filter_eq_nil_iff]
      intro x hx
      simp [hFfalse x hx]
    rw [h0]
    simp [otpFreshRec]

/-- Claim C7, witness at a concrete input: requesting twice for the same mobile and
purpose, then verifying the first code. -/
theorem C7_new_request_supersedes_old_witness :
    (otpVerify (otpRequest (otpRequest [] "+919876543210" "login" "1111" 0)
        "+919876543210" "login" "2222" 10) "+919876543210" "login" "1111" 20).1 =
      .mismatch 4 :=
  (C7_new_request_supersedes_old [] "+919876543210" "login" "1111" "2222" 0 10 20
    (by decide) (by decide)).1
